import Mathlib

/-!
Verification of the transaction wrapper in src/lib/transaction.js.

The source file defines a single constructor, TransactionDatabase, whose
body declares the shared state (queue, _lock, currentTransaction, _exec)
as local variables and the components (_wait, _runQueue, beginTransaction,
wrapObject, wrapDbMethod, interceptEmit) as local functions.

Modelling note. The source refers to the constructor-scope bindings
(queue, _lock, currentTransaction, _wait, _runQueue, _exec,
beginTransaction) through properties of the instance, such as
transdb.queue and self._wait, that the constructor never assigns; the
instance field transdb.db is likewise never assigned. One consequence is
recorded precisely below: the constructor itself cannot complete
(wrapObject is invoked on the undefined transdb.db and then calls
target.emit.bind on an instance without an emit method). The behavioural
models in this file read the remaining property references as the
constructor-scope bindings they evidently denote, so that each component
claim can be settled against the logic of that component. Machine
integers are modelled as Int, driver callbacks as explicit values, the
asynchronous driver as an oracle (a list of Bool giving the success of
the n-th issued SQL command), and one scheduling in which each issued
command completes before the next application action, which is a
realizable interleaving of the event loop.
-/

namespace SqliteTx

/-! ## Callback values and argument lists (wrapDbMethod, lines 179-243)

A callback is either one supplied by the caller, the synthesized
dummyCallback (lines 180-182), or the hijacked newCallback (lines
208-212) wrapping an original callback. An argument is a callback or a
plain value. -/

inductive CB : Type where
  | user (id : Nat)
  | dummy
  | hijacked (orig : CB)
deriving DecidableEq

inductive Arg : Type where
  | plain (id : Nat)
  | fn (c : CB)
deriving DecidableEq

def Arg.isFn : Arg → Bool
  | .fn _ => true
  | .plain _ => false

/-- The lockMethods table of the source, lines 12-21. -/
def lockMethods : List String :=
  ["exec", "run", "get", "all", "each", "map", "finalize", "reset"]

/-- Reads args[i] and asks whether it is a Function; a negative index is
the undefined value of JavaScript, which is not a Function. -/
def argIsFnAt (args : List Arg) (i : Int) : Bool :=
  if 0 ≤ i then ((args.get? i.toNat).map Arg.isFn).getD false else false

/-- Lines 192-204: for the each method, append dummy completion callbacks
so that lock accounting stays balanced. The first test is
arguments.length <= 2 or neither of the last two arguments is a
Function; the second appends a single dummy when only the last argument
is a Function. -/
def eachNormalize (args : List Arg) : List Arg :=
  let len : Int := args.length
  if args.length ≤ 2 ∨ (argIsFnAt args (len - 1) = false ∧ argIsFnAt args (len - 2) = false) then
    args ++ [Arg.fn CB.dummy, Arg.fn CB.dummy]
  else if argIsFnAt args (len - 1) = true ∧ argIsFnAt args (len - 2) = false then
    args ++ [Arg.fn CB.dummy]
  else args

/-- Lines 206-222: hijack the trailing callback. When the argument list
ends in a Function, that Function becomes originalCallback and is
replaced in place by newCallback; otherwise originalCallback is the
dummy and newCallback is appended. Returns the new argument list and
the originalCallback captured by the hijacked wrapper. -/
def hijack (args : List Arg) : List Arg × CB :=
  match args.getLast? with
  | some (Arg.fn c) => (args.dropLast ++ [Arg.fn (CB.hijacked c)], c)
  | _ => (args ++ [Arg.fn (CB.hijacked CB.dummy)], CB.dummy)

/-- The argument list actually used for a call going through the wrapper
returned by wrapDbMethod: locking methods get the each normalization
and then the hijacked callback; other methods pass through unchanged. -/
def wrappedArgs (method : String) (args : List Arg) : List Arg :=
  if lockMethods.contains method then
    (hijack (if method = "each" then eachNormalize args else args)).1
  else args

/-- The originalCallback captured by the hijacked wrapper for a locking
method. -/
def originalOf (method : String) (args : List Arg) : CB :=
  (hijack (if method = "each" then eachNormalize args else args)).2

/-- Semantics of invoking a callback value at a given lock counter, from
newCallback, lines 208-212: the hijacked wrapper first throws the error
Locks are not balanced when the counter is below one, otherwise
decrements the counter and invokes the original; user callbacks and the
dummy leave the counter alone. -/
def invokeCB : CB → Int → Except String Int
  | CB.user _, l => Except.ok l
  | CB.dummy, l => Except.ok l
  | CB.hijacked c, l =>
      if l < 1 then Except.error "Locks are not balanced" else invokeCB c (l - 1)

inductive PendKind : Type where
  | lockK
  | simpleK
deriving DecidableEq

/-- A queued entry as pushed on lines 235-240. -/
structure PendingOp : Type where
  kind : PendKind
  method : String
  args : List Arg
deriving DecidableEq

structure DispatchState : Type where
  lock : Int
  inTransaction : Bool
  queue : List PendingOp
deriving DecidableEq

inductive DispatchEffect : Type where
  | executed (method : String) (args : List Arg)
  | queued
deriving DecidableEq

/-- The body of the closure returned by wrapDbMethod (lines 186-242):
normalize and hijack the callback for locking methods, then either
execute now (incrementing the lock for locking methods) when no
transaction is current, or push a PendingOp onto the queue. -/
def wrapDbMethodCall (method : String) (args : List Arg) (s : DispatchState) :
    DispatchState × DispatchEffect :=
  let args2 := wrappedArgs method args
  if s.inTransaction = false then
    (if lockMethods.contains method then { s with lock := s.lock + 1 } else s,
     DispatchEffect.executed method args2)
  else
    ({ s with queue := s.queue ++ [⟨if lockMethods.contains method then PendKind.lockK else PendKind.simpleK, method, args2⟩] },
     DispatchEffect.queued)

/-- Lock increment performed at dispatch time for a locking method. -/
def lockInc (method : String) : Int := if lockMethods.contains method then 1 else 0

/-- Queue entry kind chosen on line 236. -/
def pendKindOf (method : String) : PendKind :=
  if lockMethods.contains method then PendKind.lockK else PendKind.simpleK

/-- The trailing callback supplied by the caller, or the dummy when the
caller supplied none; this is the spec-side description of the wrapped
original. -/
def callerCB (args : List Arg) : CB :=
  match args.getLast? with
  | some (Arg.fn c) => c
  | _ => CB.dummy

/-! ## Lock accounting sequences (claim C5) -/

/-- A lock-relevant event: a dispatch of a locking operation (line 230 or
line 87), or the firing of a wrapped completion, which runs newCallback
around the given original callback. -/
inductive LockEvent : Type where
  | dispatchInc
  | completion (orig : CB)

def applyLockEvents : List LockEvent → Int → Except String Int
  | [], l => Except.ok l
  | LockEvent.dispatchInc :: r, l => applyLockEvents r (l + 1)
  | LockEvent.completion c :: r, l =>
      match invokeCB (CB.hijacked c) l with
      | Except.error e => Except.error e
      | Except.ok l2 => applyLockEvents r l2

/-! ## The wait primitive (_wait, lines 64-73, claim C10) -/

/-- The setTimeout delay used by the recursive check, in milliseconds
(line 69). -/
def waitPollDelayMs : Nat := 1

/-- The check loop of _wait: at time t, invoke the continuation when the
lock counter reads zero, otherwise re-check after the poll delay. The
fuel bounds how many checks we observe; the result is the time at which
the continuation fires, when it fires within the observed checks. -/
def waitCheck (lockAt : Nat → Int) : Nat → Nat → Option Nat
  | 0, _ => none
  | fuel + 1, t =>
      if lockAt t = 0 then some t else waitCheck lockAt fuel (t + waitPollDelayMs)

/-! ## The constructor (lines 23-47 and 165-174, claim C4) -/

inductive JsExn : Type where
  | typeError
  | referenceError
deriving DecidableEq

/-- The prohibitedMethods table, lines 5-10. -/
def prohibitedMethods : List String :=
  ["emit", "addListener", "setMaxListeners", "on", "once",
   "removeListener", "removeAllListeners", "listeners", "prepare"]

/-- Names bound in scope at line 168 (module scope plus the constructor
scope): the identifier wrapMethod is not among them, so evaluating the
loop body of wrapObject raises a ReferenceError under strict mode. -/
def constructorScopeNames : List String :=
  ["events", "prohibitedMethods", "lockMethods", "TransactionDatabase",
   "transdb", "queue", "_lock", "db", "currentTransaction", "_exec",
   "opts", "callback", "prepare", "_wait", "_runQueue", "beginTransaction",
   "wrapObject", "wrapDbMethod", "interceptEmit"]

/-- Own and inherited properties available on the wrapper instance when
line 173 runs: the constructor has assigned nothing to this, the
prototype of TransactionDatabase declares no methods, and
events.EventEmitter.call(target) on line 172 installs only the data
fields of an emitter, not its methods (those live on the EventEmitter
prototype, which the instance does not inherit). -/
def transdbInstanceProps : List String := ["_events", "_eventsCount", "_maxListeners"]

/-- The for-in loop of wrapObject, lines 166-170, over the enumerable
function-valued property names of the source: each non-prohibited name
evaluates the identifier wrapMethod, which raises a ReferenceError when
the name is not in scope. -/
def wrapLoop (methods : List String) (targetProps : List String) :
    Except JsExn (List String) :=
  match methods with
  | [] => Except.ok targetProps
  | m :: rest =>
      if prohibitedMethods.contains m then wrapLoop rest targetProps
      else if constructorScopeNames.contains "wrapMethod" then
        wrapLoop rest (targetProps ++ [m])
      else Except.error JsExn.referenceError

/-- wrapObject(transactionDatabase, target, source), lines 165-174. A
source that is the undefined value iterates zero times, so the loop body
is never evaluated; line 173 then reads target.emit and calls bind on
it, a TypeError when the target has no emit property. -/
def wrapObjectCall (sourceMethods : Option (List String)) (targetProps : List String) :
    Except JsExn Unit :=
  match (match sourceMethods with
         | none => Except.ok targetProps
         | some ms => wrapLoop ms targetProps) with
  | Except.error e => Except.error e
  | Except.ok props =>
      if props.contains "emit" then Except.ok () else Except.error JsExn.typeError

/-- The value of the field transdb.db read on line 40: the constructor
never assigns this.db, so the read yields the undefined value. -/
def transdbDbValue : Option (List String) := none

/-- The constructor body, lines 23-47, for an options argument whose
database collaborator behaves (serialize on line 30 succeeds, and the
optional exec selection on lines 32-38 merely chooses between two
closures, recorded by the Boolean). Line 40 then calls wrapObject on
the instance and the undefined transdb.db. On success the constructor
would continue to line 42 and return; the theorem below shows that the
success branch is unreachable. -/
def constructTransactionDatabase (optsHasExecFn : Bool) : Except JsExn Unit :=
  let _ := optsHasExecFn
  match wrapObjectCall transdbDbValue transdbInstanceProps with
  | Except.error e => Except.error e
  | Except.ok _ => Except.ok ()

/-! ## Operational model of the transaction controller

This models beginTransaction (lines 98-160), _runQueue (lines 83-96) and
the error listener (lines 42-47). The transaction handle is the shared
connection object self.db (line 112): each begin installs fresh commit
and rollback closures on that one object (lines 123 and 142), each pair
capturing its own finished flag. The state tracks which generation of
closures is installed (slot) and the finished flag of every generation
(fin). SQL commands are issued through _exec; the oracle lists the
success of the n-th issued command (missing entries succeed). Commands
complete synchronously in issue order, one realizable scheduling of the
event loop. The field dbCurrentTransaction is the currentTransaction
property of the connection object itself, the object the error listener
receives as this on line 43; the program never assigns that property
(line 114 assigns the property of the wrapper, a different object). -/

inductive Sql : Type where
  | beginCmd
  | commitCmd
  | rollbackCmd
deriving DecidableEq

/-- The error value passed to a callback. -/
inductive ErrArg : Type where
  | noErr
  | execErr (n : Nat)
  | alreadyCommitErr
  | alreadyFinishedErr
deriving DecidableEq

/-- Observable events: an SQL command issued to the driver (with its
issue index), a callback invocation (the Boolean records whether the
transaction handle was passed as second argument, line 157), and the
dispatch of a queued plain operation to its target (line 90). -/
inductive Ev : Type where
  | sql (c : Sql) (n : Nat)
  | cbCall (cb : Nat) (e : ErrArg) (handle : Bool)
  | dispatchOp (id : Nat)
deriving DecidableEq

inductive OpKind : Type where
  | lock
  | simple
deriving DecidableEq

/-- A queue entry: a deferred plain operation (type lock or simple,
lines 235-240) or a deferred beginTransaction (type transaction, lines
102-107) recording the original callback argument unchanged. -/
inductive QItem : Type where
  | op (k : OpKind) (id : Nat)
  | beginT (cb : Nat)
deriving DecidableEq

def QItem.isBegin : QItem → Bool
  | .beginT _ => true
  | .op _ _ => false

/-- How a stored callback is invoked when a transaction finishes: a
caller-supplied callback, the closure function(){ cb(error) } from line
132 whose body evaluates the undeclared identifier error and therefore
throws a ReferenceError under strict mode, or the empty closure
function(){} from line 44 which ignores its argument. -/
inductive CbK : Type where
  | user (id : Nat)
  | throwRef
  | ignore
deriving DecidableEq

structure S : Type where
  current : Bool
  slot : Option Nat
  fin : List Bool
  queue : List QItem
  lock : Int
  nextCmd : Nat
  oracle : List Bool
  events : List Ev
  thrown : Bool
  parked : Bool
  dbCurrentTransaction : Option Nat
deriving DecidableEq

/-- Issue an SQL command through _exec: log the command, advance the
issue counter, and report the success the oracle assigns to this index
together with the index. -/
def issue (s : S) (c : Sql) : S × Bool × Nat :=
  ({ s with nextCmd := s.nextCmd + 1, events := s.events ++ [Ev.sql c s.nextCmd] },
   s.oracle.getD s.nextCmd true, s.nextCmd)

/-- beginTransaction, lines 98-160. With a current transaction the
request is pushed as a transaction-kind queue entry with its arguments
unchanged (lines 101-109). Otherwise the handle is the connection
object: a fresh generation is allocated with finished set to false, the
commit and rollback closures of that generation are installed on the
connection object, currentTransaction is set (lines 111-150), and after
_wait passes (the lock counter is zero) BEGIN is issued; on success the
callback receives the handle, on failure it receives the error and,
exactly as on line 156, nothing else happens: currentTransaction stays
set. A nonzero lock counter parks the continuation inside _wait. -/
def beginCore (s : S) (cb : Nat) : S :=
  if s.current = true then
    { s with queue := s.queue ++ [QItem.beginT cb] }
  else
    let g := s.fin.length
    let s1 : S := { s with fin := s.fin ++ [false], current := true, slot := some g }
    if s1.lock = 0 then
      let r := issue s1 Sql.beginCmd
      if r.2.1 = true then
        { r.1 with events := r.1.events ++ [Ev.cbCall cb ErrArg.noErr true] }
      else
        { r.1 with events := r.1.events ++ [Ev.cbCall cb (ErrArg.execErr r.2.2) false] }
    else { s1 with parked := true }

/-- The while loop of _runQueue, lines 84-95, over the remaining queue:
a lock-kind entry increments the lock counter before dispatch (lines
86-88), every plain entry is dispatched and the walk continues, and a
transaction-kind entry re-invokes beginTransaction with the stored
callback and stops the walk (lines 90-94). -/
def runQueueGo : List QItem → S → S
  | [], s => s
  | QItem.op k id :: rest, s =>
      let s1 := if k = OpKind.lock then { s with lock := s.lock + 1 } else s
      runQueueGo rest { s1 with events := s1.events ++ [Ev.dispatchOp id] }
  | QItem.beginT cb :: rest, s => beginCore { s with queue := rest } cb

/-- _runQueue, lines 83-96. -/
def runQueue (s : S) : S := runQueueGo s.queue { s with queue := [] }

/-- Invoke a stored finish callback with an error argument. -/
def invokeK (s : S) (k : CbK) (e : ErrArg) : S :=
  match k with
  | CbK.user id => { s with events := s.events ++ [Ev.cbCall id e false] }
  | CbK.throwRef => { s with thrown := true }
  | CbK.ignore => s

/-- finishTransaction, lines 116-121: set the finished flag of the
generation, clear currentTransaction, run the queue, then invoke the
callback with the given error. -/
def finishTransaction (s : S) (g : Nat) (e : ErrArg) (k : CbK) : S :=
  invokeK (runQueue { s with fin := s.fin.set g true, current := false }) k e

/-- The rollback closure of generation g, lines 142-150: an already
finished generation immediately calls the callback with the finished
error; otherwise, once _wait passes, ROLLBACK is issued and
finishTransaction runs with the ROLLBACK outcome. -/
def rollbackClosure (s : S) (g : Nat) (k : CbK) : S :=
  if s.fin.getD g false = true then invokeK s k ErrArg.alreadyFinishedErr
  else if s.lock = 0 then
    let r := issue s Sql.rollbackCmd
    finishTransaction r.1 g (if r.2.1 = true then ErrArg.noErr else ErrArg.execErr r.2.2) k
  else { s with parked := true }

/-- The commit closure of generation g, lines 123-140: an already
finished generation immediately calls the callback with the commit
variant of the finished error; otherwise, once _wait passes, COMMIT is
issued; on success finishTransaction runs with no error and the user
callback; on failure line 132 invokes tr.rollback, which dispatches
through the closure currently installed on the connection object,
passing the closure that throws the ReferenceError. -/
def commitClosure (s : S) (g : Nat) (cb : Nat) : S :=
  if s.fin.getD g false = true then
    { s with events := s.events ++ [Ev.cbCall cb ErrArg.alreadyCommitErr false] }
  else if s.lock = 0 then
    let r := issue s Sql.commitCmd
    if r.2.1 = true then finishTransaction r.1 g ErrArg.noErr (CbK.user cb)
    else
      match r.1.slot with
      | some g2 => rollbackClosure r.1 g2 CbK.throwRef
      | none => { r.1 with thrown := true }
  else { s with parked := true }

/-- Application-level actions: call beginTransaction, call commit or
rollback on the transaction handle (the shared connection object), or
let the connection emit an error event. -/
inductive Act : Type where
  | appBegin (cb : Nat)
  | appCommit (cb : Nat)
  | appRollback (cb : Nat)
  | emitError
deriving DecidableEq

/-- One application action. Calling commit or rollback on the handle
dispatches through the closure generation currently installed on the
connection object; with no closure installed the call is to an
undefined property, modelled as thrown. The error listener, lines
42-47, runs with this bound to the emitting connection object and
tests this.currentTransaction, the property of the connection object;
only when that is non-null does it invoke rollback with the empty
callback. Once an exception has escaped, nothing further runs. -/
def step (s : S) (a : Act) : S :=
  if s.thrown = true then s
  else
    match a with
    | Act.appBegin cb => beginCore s cb
    | Act.appCommit cb =>
        match s.slot with
        | some g => commitClosure s g cb
        | none => { s with thrown := true }
    | Act.appRollback cb =>
        match s.slot with
        | some g => rollbackClosure s g (CbK.user cb)
        | none => { s with thrown := true }
    | Act.emitError =>
        if s.dbCurrentTransaction.isSome = true then
          match s.slot with
          | some g => rollbackClosure s g CbK.ignore
          | none => { s with thrown := true }
        else s

def run (s : S) : List Act → S
  | [] => s
  | a :: r => run (step s a) r

/-- The freshly constructed state: no transaction, empty queue, zero
lock, every command succeeding unless the oracle is overridden. -/
def init0 : S :=
  { current := false, slot := none, fin := [], queue := [], lock := 0,
    nextCmd := 0, oracle := [], events := [], thrown := false, parked := false,
    dbCurrentTransaction := none }

/-! ## Spec-side description of a drain (claim C2) -/

/-- Total lock increment a list of queue entries causes at dispatch. -/
def lockDelta : List QItem → Int
  | [] => 0
  | QItem.op k _ :: r => (if k = OpKind.lock then 1 else 0) + lockDelta r
  | QItem.beginT _ :: r => lockDelta r

/-- Dispatch events of the plain entries of a list, in order. -/
def opEvs : List QItem → List Ev
  | [] => []
  | QItem.op _ id :: r => Ev.dispatchOp id :: opEvs r
  | QItem.beginT _ :: r => opEvs r

/-! ## Concrete states used by the witnesses -/

/-- A lock-counter history that is zero at every observation. -/
def zeroLockTrace : Nat → Int := fun _ => 0

/-- A fresh wrapper whose first issued command fails. -/
def beginFailS : S := { init0 with oracle := [false] }

/-- A wrapper with a transaction currently open. -/
def busyS : S := { init0 with current := true }

/-- A wrapper whose installed closure generation has already finished. -/
def finS : S := { init0 with slot := some 0, fin := [true] }

/-- A queue of plain operations only. -/
def drainS1 : S :=
  { init0 with queue := [QItem.op OpKind.lock 10, QItem.op OpKind.simple 11] }

/-- A queue with a deferred beginTransaction in the middle. -/
def drainS2 : S :=
  { init0 with queue := [QItem.op OpKind.simple 12, QItem.beginT 7, QItem.op OpKind.lock 13] }

/-! ## Helper lemmas -/

lemma hijack_getLast (args : List Arg) :
    (hijack args).1.getLast? = some (Arg.fn (CB.hijacked (hijack args).2)) := by
  cases hl : args.getLast? with
  | none => simp [hijack, hl]
  | some a =>
    cases a with
    | plain id => simp [hijack, hl]
    | fn c => simp [hijack, hl]

lemma originalOf_eq_callerCB (method : String) (args : List Arg) (h : method ≠ "each") :
    originalOf method args = callerCB args := by
  unfold originalOf callerCB
  rw [if_neg h]
  cases hl : args.getLast? with
  | none => simp [hijack, hl]
  | some a =>
    cases a with
    | plain id => simp [hijack, hl]
    | fn c => simp [hijack, hl]

lemma invokeCB_nonneg (c : CB) :
    ∀ (l l2 : Int), 0 ≤ l → invokeCB c l = Except.ok l2 → 0 ≤ l2 := by
  induction c with
  | user id => intro l l2 h0 h; simp [invokeCB] at h; omega
  | dummy => intro l l2 h0 h; simp [invokeCB] at h; omega
  | hijacked c ih =>
    intro l l2 h0 h
    by_cases hl : l < 1
    · simp [invokeCB, hl] at h
    · rw [invokeCB, if_neg hl] at h
      exact ih _ _ (by omega) h

lemma runQueueGo_no_begin (q : List QItem) (s : S)
    (h : ∀ i ∈ q, i.isBegin = false) :
    runQueueGo q s =
      { s with lock := s.lock + lockDelta q, events := s.events ++ opEvs q } := by
  induction q generalizing s with
  | nil => simp [runQueueGo, lockDelta, opEvs]
  | cons i r ih =>
    have hr : ∀ j ∈ r, j.isBegin = false := fun j hj => h j (List.mem_cons_of_mem _ hj)
    cases i with
    | op k id =>
      cases k with
      | lock =>
        rw [runQueueGo, ih _ hr]
        simp [lockDelta, opEvs, List.append_assoc, Int.add_assoc]
      | simple =>
        rw [runQueueGo, ih _ hr]
        simp [lockDelta, opEvs, List.append_assoc, Int.add_assoc]
    | beginT cb =>
      exact absurd (h _ (List.mem_cons_self _ _)) (by simp [QItem.isBegin])

lemma runQueueGo_first_begin (pre : List QItem) (cb : Nat) (post : List QItem) (s : S)
    (h : ∀ i ∈ pre, i.isBegin = false) :
    runQueueGo (pre ++ QItem.beginT cb :: post) s =
      beginCore { s with queue := post, lock := s.lock + lockDelta pre,
                         events := s.events ++ opEvs pre } cb := by
  induction pre generalizing s with
  | nil => simp [runQueueGo, lockDelta, opEvs]
  | cons i r ih =>
    have hr : ∀ j ∈ r, j.isBegin = false := fun j hj => h j (List.mem_cons_of_mem _ hj)
    cases i with
    | op k id =>
      cases k with
      | lock =>
        rw [List.cons_append, runQueueGo, ih _ hr]
        congr 1
        simp [lockDelta, opEvs, List.append_assoc, Int.add_assoc]
      | simple =>
        rw [List.cons_append, runQueueGo, ih _ hr]
        congr 1
        simp [lockDelta, opEvs, List.append_assoc, Int.add_assoc]
    | beginT cb2 =>
      exact absurd (h _ (List.mem_cons_self _ _)) (by simp [QItem.isBegin])

lemma beginCore_queue_of_idle (s : S) (cb : Nat) (h : s.current = false) :
    (beginCore s cb).queue = s.queue := by
  rw [beginCore, h]
  simp only [Bool.false_eq_true, if_false, issue]
  split
  · split <;> rfl
  · rfl

lemma issue_dbCT (s : S) (c : Sql) :
    (issue s c).1.dbCurrentTransaction = s.dbCurrentTransaction := rfl

lemma beginCore_dbCT (s : S) (cb : Nat) :
    (beginCore s cb).dbCurrentTransaction = s.dbCurrentTransaction := by
  rw [beginCore]
  split
  · rfl
  · simp only [issue]
    split
    · split <;> rfl
    · rfl

lemma runQueueGo_dbCT (q : List QItem) (s : S) :
    (runQueueGo q s).dbCurrentTransaction = s.dbCurrentTransaction := by
  induction q generalizing s with
  | nil => rfl
  | cons i r ih =>
    cases i with
    | op k id => rw [runQueueGo, ih]; cases k <;> rfl
    | beginT cb => rw [runQueueGo, beginCore_dbCT]

lemma runQueue_dbCT (s : S) :
    (runQueue s).dbCurrentTransaction = s.dbCurrentTransaction := by
  rw [runQueue, runQueueGo_dbCT]

lemma invokeK_dbCT (s : S) (k : CbK) (e : ErrArg) :
    (invokeK s k e).dbCurrentTransaction = s.dbCurrentTransaction := by
  cases k <;> rfl

lemma finishTransaction_dbCT (s : S) (g : Nat) (e : ErrArg) (k : CbK) :
    (finishTransaction s g e k).dbCurrentTransaction = s.dbCurrentTransaction := by
  rw [finishTransaction, invokeK_dbCT, runQueue_dbCT]

lemma rollbackClosure_dbCT (s : S) (g : Nat) (k : CbK) :
    (rollbackClosure s g k).dbCurrentTransaction = s.dbCurrentTransaction := by
  rw [rollbackClosure]
  split
  · rw [invokeK_dbCT]
  · split
    · simp [issue, finishTransaction_dbCT]
    · rfl

lemma commitClosure_dbCT (s : S) (g : Nat) (cb : Nat) :
    (commitClosure s g cb).dbCurrentTransaction = s.dbCurrentTransaction := by
  rw [commitClosure]
  split
  · rfl
  · split
    · simp only [issue]
      split
      · simp [finishTransaction_dbCT]
      · split
        · simp [rollbackClosure_dbCT]
        · rfl
    · rfl

lemma step_dbCT (s : S) (a : Act) :
    (step s a).dbCurrentTransaction = s.dbCurrentTransaction := by
  rw [step.eq_def]
  split
  · rfl
  · cases a with
    | appBegin cb => exact beginCore_dbCT s cb
    | appCommit cb =>
      dsimp only
      split
      · rw [commitClosure_dbCT]
      · rfl
    | appRollback cb =>
      dsimp only
      split
      · rw [rollbackClosure_dbCT]
      · rfl
    | emitError =>
      dsimp only
      split
      · split
        · rw [rollbackClosure_dbCT]
        · rfl
      · rfl

lemma run_dbCT (tr : List Act) (s : S) :
    (run s tr).dbCurrentTransaction = s.dbCurrentTransaction := by
  induction tr generalizing s with
  | nil => rfl
  | cons a r ih => rw [run, ih, step_dbCT]

/-! ## Claim theorems -/

/-- Claim C4: for every options argument, constructing
TransactionDatabase raises an exception before returning a usable
wrapper. The constructor passes the never-assigned field transdb.db
(the undefined value) to wrapObject; the for-in loop over undefined
iterates zero times, and line 173 then calls bind on target.emit, which
the instance does not have (neither among its own properties nor on the
prototype of TransactionDatabase, which does not inherit from
EventEmitter), a TypeError. The loop body, had it run, would evaluate
the identifier wrapMethod, which is defined nowhere in scope. No
invocation of the constructor completes normally. -/
theorem constructor_never_completes :
    (∀ b : Bool, constructTransactionDatabase b = Except.error JsExn.typeError)
  ∧ transdbInstanceProps.contains "emit" = false
  ∧ constructorScopeNames.contains "wrapMethod" = false :=
  ⟨fun b => by cases b <;> rfl, by decide, by decide⟩

/-- Claim C10: the continuation handed to _wait is invoked only at an
observation time at which the lock counter equals zero, never while it
is positive, and the re-check happens by polling at the bounded
setTimeout interval of 1 millisecond, which is at most 5. -/
theorem wait_fires_only_at_zero (lockAt : Nat → Int) (fuel t t2 : Nat)
    (h : waitCheck lockAt fuel t = some t2) :
    lockAt t2 = 0 ∧ waitPollDelayMs ≤ 5 := by
  induction fuel generalizing t with
  | zero => simp [waitCheck] at h
  | succ n ih =>
    by_cases hz : lockAt t = 0
    · rw [waitCheck, if_pos hz] at h
      cases h
      exact ⟨hz, by decide⟩
    · rw [waitCheck, if_neg hz] at h
      exact ih _ h

/-- Witness for C10 at a concrete lock history and firing time. -/
theorem wait_fires_only_at_zero_witness :
    zeroLockTrace 0 = 0 ∧ waitPollDelayMs ≤ 5 :=
  wait_fires_only_at_zero zeroLockTrace 1 0 0 (by simp [waitCheck, zeroLockTrace])

/-- Claim C5: the lock counter never becomes negative. Every wrapped
completion (a run of newCallback) decrements the counter exactly once,
and a completion whose decrement would take the counter below zero
throws the error Locks are not balanced instead of being absorbed:
first conjunct, any sequence of dispatch increments and wrapped
completions that runs to completion keeps the counter non-negative;
second conjunct, the escalation fires exactly when the counter is below
one; third conjunct, a wrapped completion around a caller callback or
the dummy decrements by exactly one. -/
theorem lock_counter_never_negative :
    (∀ (evs : List LockEvent) (l0 l1 : Int),
        0 ≤ l0 → applyLockEvents evs l0 = Except.ok l1 → 0 ≤ l1)
  ∧ (∀ (c : CB) (l : Int), l < 1 →
        invokeCB (CB.hijacked c) l = Except.error "Locks are not balanced")
  ∧ (∀ (id : Nat) (l : Int), 1 ≤ l →
        invokeCB (CB.hijacked (CB.user id)) l = Except.ok (l - 1)
        ∧ invokeCB (CB.hijacked CB.dummy) l = Except.ok (l - 1)) := by
  refine ⟨?_, ?_, ?_⟩
  · intro evs
    induction evs with
    | nil =>
      intro l0 l1 h0 h
      simp [applyLockEvents] at h
      omega
    | cons e r ih =>
      intro l0 l1 h0 h
      cases e with
      | dispatchInc =>
        rw [applyLockEvents] at h
        exact ih _ _ (by omega) h
      | completion c =>
        rw [applyLockEvents] at h
        cases hinv : invokeCB (CB.hijacked c) l0 with
        | error e2 => rw [hinv] at h; simp at h
        | ok l2 =>
          rw [hinv] at h
          exact ih _ _ (invokeCB_nonneg _ _ _ h0 hinv) h
  · intro c l hl
    rw [invokeCB, if_pos hl]
  · intro id l hl
    have hn : ¬ l < 1 := by omega
    exact ⟨by rw [invokeCB, if_neg hn]; rfl, by rw [invokeCB, if_neg hn]; rfl⟩

/-- Witness for C5 at concrete counters and a concrete event sequence. -/
theorem lock_counter_never_negative_witness :
    (0 : Int) ≤ 0
  ∧ invokeCB (CB.hijacked CB.dummy) 0 = Except.error "Locks are not balanced"
  ∧ invokeCB (CB.hijacked (CB.user 3)) 2 = Except.ok 1 := by
  have h := lock_counter_never_negative
  refine ⟨h.1 [LockEvent.dispatchInc, LockEvent.completion (CB.user 0)] 0 0
            (by decide) (by rfl),
          h.2.1 CB.dummy 0 (by decide), ?_⟩
  have h2 := (h.2.2 3 2 (by decide)).1
  simpa using h2

/-- Claim C3: an intercepted call with no transaction active executes
immediately, the lock counter is incremented before dispatch exactly
for locking-kind methods, and for those the completion callback in the
dispatched arguments is the hijacked wrapper, whose original is the
callback the caller supplied in last position, or the synthesized dummy
when the caller supplied none; with a transaction active, the call with
the wrapped callback already substituted is appended to the operation
queue and nothing executes at call time. The last two conjuncts state
the wrapper semantics: it escalates below one, otherwise decrements
before invoking the original. -/
theorem wrapDbMethod_routes (method : String) (args : List Arg) (lock : Int)
    (q : List PendingOp) :
    (wrapDbMethodCall method args ⟨lock, false, q⟩ =
      (⟨lock + lockInc method, false, q⟩,
       DispatchEffect.executed method (wrappedArgs method args)))
  ∧ (wrapDbMethodCall method args ⟨lock, true, q⟩ =
      (⟨lock, true, q ++ [⟨pendKindOf method, method, wrappedArgs method args⟩]⟩,
       DispatchEffect.queued))
  ∧ (lockMethods.contains method = true →
      (wrappedArgs method args).getLast? =
        some (Arg.fn (CB.hijacked (originalOf method args))))
  ∧ (lockMethods.contains method = false → wrappedArgs method args = args)
  ∧ (lockMethods.contains method = true → method ≠ "each" →
      originalOf method args = callerCB args)
  ∧ (∀ l : Int, l < 1 →
      invokeCB (CB.hijacked (originalOf method args)) l =
        Except.error "Locks are not balanced")
  ∧ (∀ l : Int, 1 ≤ l →
      invokeCB (CB.hijacked (originalOf method args)) l =
        invokeCB (originalOf method args) (l - 1)) := by
  refine ⟨?_, ?_, ?_, ?_, ?_, ?_, ?_⟩
  · by_cases hm : method ∈ lockMethods <;> simp [wrapDbMethodCall, lockInc, hm]
  · by_cases hm : method ∈ lockMethods <;> simp [wrapDbMethodCall, pendKindOf, hm]
  · intro hc
    have hm : method ∈ lockMethods := by simpa using hc
    simp [wrappedArgs, originalOf, hm]
    exact hijack_getLast _
  · intro hc
    have hm : method ∉ lockMethods := by simpa using hc
    simp [wrappedArgs, hm]
  · intro _hc hne
    exact originalOf_eq_callerCB method args hne
  · intro l hl
    rw [invokeCB, if_pos hl]
  · intro l hl
    rw [invokeCB, if_neg (by omega)]

/-- Witness for C3 at the locking method run with a supplied callback
and at a non-locking method. -/
theorem wrapDbMethod_routes_witness :
    (wrappedArgs "run" [Arg.plain 0, Arg.fn (CB.user 7)]).getLast? =
      some (Arg.fn (CB.hijacked (originalOf "run" [Arg.plain 0, Arg.fn (CB.user 7)])))
  ∧ originalOf "run" [Arg.plain 0, Arg.fn (CB.user 7)] =
      callerCB [Arg.plain 0, Arg.fn (CB.user 7)]
  ∧ wrappedArgs "close" [Arg.plain 0] = [Arg.plain 0]
  ∧ invokeCB (CB.hijacked (originalOf "run" [Arg.plain 0, Arg.fn (CB.user 7)])) 0 =
      Except.error "Locks are not balanced"
  ∧ invokeCB (CB.hijacked (originalOf "run" [Arg.plain 0, Arg.fn (CB.user 7)])) 1 =
      invokeCB (originalOf "run" [Arg.plain 0, Arg.fn (CB.user 7)]) 0 := by
  have h1 := wrapDbMethod_routes "run" [Arg.plain 0, Arg.fn (CB.user 7)] 0 []
  have h2 := wrapDbMethod_routes "close" [Arg.plain 0] 0 []
  refine ⟨h1.2.2.1 (by decide), h1.2.2.2.2.1 (by decide) (by decide),
          h2.2.2.2.1 (by decide), h1.2.2.2.2.2.1 0 (by decide), ?_⟩
  have h3 := h1.2.2.2.2.2.2 1 (by decide)
  simpa using h3

lemma step_appBegin (s : S) (cb : Nat) (h1 : s.thrown = false) :
    step s (Act.appBegin cb) = beginCore s cb := by
  rw [step.eq_def, h1]
  rfl

lemma step_appCommit (s : S) (g cb : Nat) (h1 : s.thrown = false) (h2 : s.slot = some g) :
    step s (Act.appCommit cb) = commitClosure s g cb := by
  rw [step.eq_def, h1, h2]
  rfl

lemma step_appRollback (s : S) (g cb : Nat) (h1 : s.thrown = false) (h2 : s.slot = some g) :
    step s (Act.appRollback cb) = rollbackClosure s g (CbK.user cb) := by
  rw [step.eq_def, h1, h2]
  rfl

/-- Claim C2: a single drain from the moment a transaction finishes
(currentTransaction just cleared) walks the queue strictly head to tail
in issue order. With no Begin-kind entry, every entry is dispatched (a
lock-kind entry increments the lock counter first) and the queue is
emptied. With a first Begin-kind entry after a Begin-free prefix, the
prefix is dispatched in order, the Begin entry is executed (the drain
state is handed to beginTransaction with the stored callback), the
drain stops there, and all entries after that Begin stay queued. -/
theorem drain_policy (s : S) (h : s.current = false) :
    ((∀ i ∈ s.queue, i.isBegin = false) →
       runQueue s = { s with queue := [], lock := s.lock + lockDelta s.queue,
                             events := s.events ++ opEvs s.queue })
  ∧ (∀ (pre : List QItem) (cb : Nat) (post : List QItem),
       s.queue = pre ++ QItem.beginT cb :: post →
       (∀ i ∈ pre, i.isBegin = false) →
       runQueue s = beginCore { s with queue := post, lock := s.lock + lockDelta pre,
                                       events := s.events ++ opEvs pre } cb
       ∧ (runQueue s).queue = post) := by
  constructor
  · intro hq
    rw [runQueue, runQueueGo_no_begin _ _ hq]
  · intro pre cb post hsq hpre
    have h1 : runQueue s =
        beginCore { s with queue := post, lock := s.lock + lockDelta pre,
                           events := s.events ++ opEvs pre } cb := by
      rw [runQueue, hsq, runQueueGo_first_begin _ _ _ _ hpre]
    refine ⟨h1, ?_⟩
    rw [h1, beginCore_queue_of_idle]
    exact h

/-- Witness for C2: a Begin-free queue is emptied; a queue with a Begin
in the middle dispatches the prefix, executes the Begin and keeps the
tail queued. -/
theorem drain_policy_witness :
    runQueue drainS1 =
      { drainS1 with queue := [], lock := drainS1.lock + lockDelta drainS1.queue,
                     events := drainS1.events ++ opEvs drainS1.queue }
  ∧ runQueue drainS2 =
      beginCore { drainS2 with queue := [QItem.op OpKind.lock 13],
                               lock := drainS2.lock + lockDelta [QItem.op OpKind.simple 12],
                               events := drainS2.events ++ opEvs [QItem.op OpKind.simple 12] } 7
  ∧ (runQueue drainS2).queue = [QItem.op OpKind.lock 13] := by
  have h1 := (drain_policy drainS1 rfl).1 (by decide)
  have h2 := (drain_policy drainS2 rfl).2 [QItem.op OpKind.simple 12] 7
    [QItem.op OpKind.lock 13] rfl (by decide)
  exact ⟨h1, h2.1, h2.2⟩

/-- Claim C7: a beginTransaction call while a transaction is current is
appended to the tail of the operation queue as a transaction-kind entry
with its callback argument unchanged, nothing else in the state changes
and nothing is executed; and when a drain reaches such an entry it
re-invokes beginTransaction with that same stored callback. -/
theorem begin_while_pending_queued (s : S) (cb : Nat)
    (h1 : s.thrown = false) (h2 : s.current = true) :
    step s (Act.appBegin cb) = { s with queue := s.queue ++ [QItem.beginT cb] }
  ∧ ∀ (t : S) (rest : List QItem),
      runQueueGo (QItem.beginT cb :: rest) t = beginCore { t with queue := rest } cb := by
  constructor
  · rw [step_appBegin s cb h1, beginCore, h2]
    rfl
  · intro t rest
    rfl

/-- Witness for C7 at a concrete busy state. -/
theorem begin_while_pending_queued_witness :
    step busyS (Act.appBegin 9) = { busyS with queue := [QItem.beginT 9] }
  ∧ runQueueGo [QItem.beginT 9] init0 = beginCore { init0 with queue := [] } 9 := by
  have h := begin_while_pending_queued busyS 9 rfl rfl
  exact ⟨h.1, h.2 init0 []⟩

/-- Claim C1 (code bug): with BEGIN succeeding and COMMIT failing, the
code does issue the compensating ROLLBACK after the failed COMMIT, but
the commit callback is never invoked with the COMMIT error: line 133
evaluates the undeclared identifier error inside the rollback callback,
which throws a ReferenceError under strict mode, so no callback event
for the commit caller ever appears. The event log shows BEGIN, the
begin callback, the failed COMMIT, the ROLLBACK, and then the thrown
flag; no event is a callback invocation of the commit caller. -/
theorem commit_failure_forwarding_bug :
    (run { init0 with oracle := [true, false, true] }
        [Act.appBegin 1, Act.appCommit 2]).events =
      [Ev.sql Sql.beginCmd 0, Ev.cbCall 1 ErrArg.noErr true, Ev.sql Sql.commitCmd 1,
       Ev.sql Sql.rollbackCmd 2]
  ∧ (run { init0 with oracle := [true, false, true] }
        [Act.appBegin 1, Act.appCommit 2]).thrown = true
  ∧ ((run { init0 with oracle := [true, false, true] }
        [Act.appBegin 1, Act.appCommit 2]).events.all
      (fun e => match e with
        | Ev.cbCall 2 _ _ => false
        | _ => true)) = true := by decide

/-- Claim C6 counterexample: every transaction handle is the one shared
connection object (line 112), and a later begin overwrites the commit
and rollback closures installed on it. After begin, commit, begin, a
commit call on the handle of the finished first transaction (the same
object as the second handle) does not fail with the already-finished
error: it issues a second COMMIT and its callback receives success. -/
theorem double_finish_claim_fails :
    (run init0 [Act.appBegin 1, Act.appCommit 2, Act.appBegin 3]).fin.getD 0 false = true
  ∧ (run init0 [Act.appBegin 1, Act.appCommit 2, Act.appBegin 3, Act.appCommit 4]).events =
      [Ev.sql Sql.beginCmd 0, Ev.cbCall 1 ErrArg.noErr true, Ev.sql Sql.commitCmd 1,
       Ev.cbCall 2 ErrArg.noErr false, Ev.sql Sql.beginCmd 2, Ev.cbCall 3 ErrArg.noErr true,
       Ev.sql Sql.commitCmd 3, Ev.cbCall 4 ErrArg.noErr false]
  ∧ ((run init0 [Act.appBegin 1, Act.appCommit 2, Act.appBegin 3, Act.appCommit 4]).events.all
      (fun e => match e with
        | Ev.cbCall 4 ErrArg.alreadyCommitErr _ => false
        | Ev.cbCall 4 ErrArg.alreadyFinishedErr _ => false
        | _ => true)) = true := by decide

/-- Claim C6 as amended: as long as the finished generation is still the
one installed on the connection object (no later transaction has begun),
a further commit or rollback call on the handle fails immediately and
synchronously with the corresponding already-finished error and causes
no state change beyond logging that callback: no SQL is issued, no wait
happens, and queue, lock and transaction state are untouched. -/
theorem finished_handle_rejected (s : S) (g cb : Nat)
    (h1 : s.thrown = false) (h2 : s.slot = some g) (h3 : s.fin.getD g false = true) :
    step s (Act.appCommit cb) =
      { s with events := s.events ++ [Ev.cbCall cb ErrArg.alreadyCommitErr false] }
  ∧ step s (Act.appRollback cb) =
      { s with events := s.events ++ [Ev.cbCall cb ErrArg.alreadyFinishedErr false] } := by
  constructor
  · rw [step_appCommit s g cb h1 h2, commitClosure, h3]
    rfl
  · rw [step_appRollback s g cb h1 h2, rollbackClosure, h3]
    rfl

/-- Witness for the amended C6 at a concrete finished state. -/
theorem finished_handle_rejected_witness :
    step finS (Act.appCommit 5) =
      { finS with events := [Ev.cbCall 5 ErrArg.alreadyCommitErr false] }
  ∧ step finS (Act.appRollback 5) =
      { finS with events := [Ev.cbCall 5 ErrArg.alreadyFinishedErr false] } := by
  have h := finished_handle_rejected finS 0 5 rfl rfl rfl
  exact ⟨h.1, h.2⟩

/-- Claim C8 counterexample: when BEGIN fails on a fresh wrapper, the
callback does receive the BEGIN error, but the current-transaction
reference is not cleared: the controller does not return to Idle. -/
theorem begin_failure_leaves_current :
    (run beginFailS [Act.appBegin 1]).current = true
  ∧ (run beginFailS [Act.appBegin 1]).events =
      [Ev.sql Sql.beginCmd 0, Ev.cbCall 1 (ErrArg.execErr 0) false] := by decide

/-- Claim C8 as amended: on BEGIN failure from Idle (lock zero), the
underlying BEGIN is issued, the callback receives exactly the BEGIN
error and no handle, but the controller does not transition back to
Idle: the current-transaction reference remains set (and the closure
slot and finished table keep the aborted generation). -/
theorem begin_failure_state (s : S) (cb : Nat)
    (h1 : s.thrown = false) (h2 : s.current = false) (h3 : s.lock = 0)
    (h4 : s.oracle.getD s.nextCmd true = false) :
    step s (Act.appBegin cb) =
      { s with fin := s.fin ++ [false], current := true, slot := some s.fin.length,
               nextCmd := s.nextCmd + 1,
               events := s.events ++ [Ev.sql Sql.beginCmd s.nextCmd,
                                      Ev.cbCall cb (ErrArg.execErr s.nextCmd) false] } := by
  have h4b : s.oracle[s.nextCmd]?.getD true = false := by simpa using h4
  rw [step_appBegin s cb h1]
  simp [beginCore, h2, h3, issue, h4b, List.append_assoc]

/-- Witness for the amended C8 at a concrete failing oracle. -/
theorem begin_failure_state_witness :
    step beginFailS (Act.appBegin 1) =
      { beginFailS with fin := [false], current := true, slot := some 0, nextCmd := 1,
                        events := [Ev.sql Sql.beginCmd 0,
                                   Ev.cbCall 1 (ErrArg.execErr 0) false] } := by
  have h := begin_failure_state beginFailS 1 rfl rfl rfl rfl
  exact h

/-- Claim C9 (code bug): the error listener, lines 42-47, runs with this
bound to the emitting connection object and guards on
this.currentTransaction, a property the program never assigns on that
object (the assignment on line 114 targets the wrapper). The guard is
therefore always false: after any trace from construction, an error
event changes nothing and issues no ROLLBACK, even in the reachable
state with a transaction active exhibited by the last conjunct. The
claim says such an event triggers an automatic rollback. -/
theorem error_event_triggers_no_rollback (o : List Bool) (tr : List Act) :
    step (run { init0 with oracle := o } tr) Act.emitError =
      run { init0 with oracle := o } tr
  ∧ (run init0 [Act.appBegin 1]).current = true := by
  constructor
  · have hdb : (run { init0 with oracle := o } tr).dbCurrentTransaction = none := by
      rw [run_dbCT]
      rfl
    rw [step.eq_def]
    simp [hdb]
  · decide

end SqliteTx
